import Mathlib

/-!
Verification of the TimeMirror single-page application (src/index.tsx).

The repository's one source file contains two near-duplicate versions of the
application concatenated.  The first version (lines 1-623) keeps explicit
mutable state (`uploadedImage`, `lifestyleFactors`, `isLoading`, `results`,
`errorMessage`); the second version (lines 625-1100) drives the DOM directly.
The definitions below are a shallow embedding of the first version's state
and logic, with the second version's prompt builder embedded separately for
the equivalence result.

Modelling conventions:
* TypeScript numbers that only ever hold small non-negative integers
  (slider values, years, array indices) are `Nat`.
* The browser object URL returned by `URL.createObjectURL` is modelled as a
  ghost identifier: a counter `objectURLCounter` in the state hands out
  fresh `Nat` handles, and `URL.revokeObjectURL` appends the handle to the
  ghost list `revokedURLs`.
* The five concurrent per-year requests of `handleGenerate` settle in some
  order chosen by the environment.  A run is therefore parametrised by an
  oracle `outcome : Nat → GenOutcome` giving each year's settlement result
  and by `order : List Nat`, the sequence in which the years settle.  The
  code spawns exactly one task per year, so in any actual run `order` is a
  permutation of the five fixed years.
* The single JavaScript event loop applies settlement handlers one at a
  time, so the evolution of `results` is the fold of the settlement handler
  over `order`.
-/

/-- Record of the three lifestyle sliders (src/index.tsx lines 12-16). -/
structure LifestyleFactors where
  smoking : Nat
  sunExposure : Nat
  stress : Nat
deriving Repr, DecidableEq

/-- Status of a per-year result card: the union type
`'loading' | 'success' | 'error'` (line 27).  The specification calls
`loading` "pending" and `error` "failed". -/
inductive CardStatus where
  | loading
  | success
  | error
deriving Repr, DecidableEq

/-- One per-year result card (lines 25-29). -/
structure ResultCard where
  year : Nat
  status : CardStatus
  imageUrl : Option String
deriving Repr, DecidableEq

/-- An uploaded image (lines 18-23).  `objectURL` is the ghost handle of the
browser object URL created for the preview. -/
structure UploadedImage where
  base64 : String
  mimeType : String
  fileName : String
  objectURL : Nat
deriving Repr, DecidableEq

/-- The first version's module-level mutable state (lines 32-36), plus the
two ghost fields `objectURLCounter` and `revokedURLs` modelling the
browser's object-URL registry. -/
structure AppState where
  uploadedImage : Option UploadedImage
  lifestyleFactors : LifestyleFactors
  isLoading : Bool
  results : List ResultCard
  errorMessage : Option String
  objectURLCounter : Nat
  revokedURLs : List Nat
deriving Repr, DecidableEq

/-- The five fixed target years (line 478 and line 893). -/
def years : List Nat := [2030, 2040, 2050, 2060, 2070]

/-- The list `parts` built by the first version's `createPrompt`
(lines 431-434): one clause pushed per factor whose value exceeds 5, in the
fixed order smoking, sun exposure, stress. -/
def promptParts (factors : LifestyleFactors) : List String :=
  let parts : List String := []
  let parts := if factors.smoking > 5 then parts ++ ["a history of smoking"] else parts
  let parts := if factors.sunExposure > 5 then parts ++ ["significant sun exposure"] else parts
  let parts := if factors.stress > 5 then parts ++ ["high levels of stress"] else parts
  parts

/-- The `factorsText` value of `createPrompt` (line 435): the default clause
when no factor exceeds the threshold, otherwise the clauses joined with
a comma and a space. -/
def factorsText (factors : LifestyleFactors) : String :=
  if (promptParts factors).length = 0 then "a healthy lifestyle"
  else String.intercalate ", " (promptParts factors)

/-- Everything of the prompt template (lines 437-444) before the
interpolated `factorsText`. -/
def promptHead (year : Nat) : String :=
  "Generate a single photorealistic image predicting how the person in the photo will look in the year " ++ toString year ++ ".\n- Key Instructions:\n- Preserve core identity: The bone structure, eye color, and key facial landmarks must be maintained.\n- Realistic, subtle aging: Apply gentle, age-appropriate wrinkles and a few hints of grey hair. The skin should still look radiant and youthful for their age. The eyes should remain sparkling and energetic.\n- Background: Keep the background consistent with the original photo.\n- Lifestyle influence: The person has had "

/-- Everything of the prompt template (lines 437-444) after the
interpolated `factorsText`. -/
def promptTail : String :=
  ", which should subtly affect wrinkle intensity.\n- Output format: High-resolution PNG.\n- Safety: Ensure the output is positive and respectful."

/-- The first version's `createPrompt` (lines 430-445). -/
def createPrompt (year : Nat) (factors : LifestyleFactors) : String :=
  let parts : List String := []
  let parts := if factors.smoking > 5 then parts ++ ["a history of smoking"] else parts
  let parts := if factors.sunExposure > 5 then parts ++ ["significant sun exposure"] else parts
  let parts := if factors.stress > 5 then parts ++ ["high levels of stress"] else parts
  let factorsText := if parts.length = 0 then "a healthy lifestyle" else String.intercalate ", " parts
  "Generate a single photorealistic image predicting how the person in the photo will look in the year " ++ toString year ++ ".\n- Key Instructions:\n- Preserve core identity: The bone structure, eye color, and key facial landmarks must be maintained.\n- Realistic, subtle aging: Apply gentle, age-appropriate wrinkles and a few hints of grey hair. The skin should still look radiant and youthful for their age. The eyes should remain sparkling and energetic.\n- Background: Keep the background consistent with the original photo.\n- Lifestyle influence: The person has had " ++ factorsText ++ ", which should subtly affect wrinkle intensity.\n- Output format: High-resolution PNG.\n- Safety: Ensure the output is positive and respectful."

/-- The second version's `createPrompt` (lines 936-954), transcribed
independently of the first. -/
def createPromptV2 (year : Nat) (lifestyleFactors : LifestyleFactors) : String :=
  let factorsTextParts : List String := []
  let factorsTextParts := if lifestyleFactors.smoking > 5 then factorsTextParts ++ ["a history of smoking"] else factorsTextParts
  let factorsTextParts := if lifestyleFactors.sunExposure > 5 then factorsTextParts ++ ["significant sun exposure"] else factorsTextParts
  let factorsTextParts := if lifestyleFactors.stress > 5 then factorsTextParts ++ ["high levels of stress"] else factorsTextParts
  let factorsText := if factorsTextParts.length = 0 then "a healthy lifestyle" else String.intercalate ", " factorsTextParts
  "Generate a single photorealistic image predicting how the person in the photo will look in the year " ++ toString year ++ ".\n- Key Instructions:\n- Preserve core identity: The bone structure, eye color, and key facial landmarks must be maintained.\n- Realistic, subtle aging: Apply gentle, age-appropriate wrinkles and a few hints of grey hair. The skin should still look radiant and youthful for their age. The eyes should remain sparkling and energetic.\n- Background: Keep the background consistent with the original photo.\n- Lifestyle influence: The person has had " ++ factorsText ++ ", which should subtly affect wrinkle intensity.\n- Output format: High-resolution PNG.\n- Safety: Ensure the output is positive and respectful."

/-- Claim C1: for every year and every slider record, the prompt builder
includes a factor's clause exactly when that factor's value exceeds 5; with
no factor above the threshold the single default clause "a healthy
lifestyle" is substituted and no factor clause appears; present clauses are
joined with ", " in the fixed order smoking, sun exposure, stress, and the
joined text is spliced into the fixed prompt template. -/
theorem createPrompt_clause_policy (year : Nat) (f : LifestyleFactors)
    (h1 : f.smoking ≤ 10) (h2 : f.sunExposure ≤ 10) (h3 : f.stress ≤ 10) :
    promptParts f =
      (if f.smoking > 5 then ["a history of smoking"] else []) ++
      (if f.sunExposure > 5 then ["significant sun exposure"] else []) ++
      (if f.stress > 5 then ["high levels of stress"] else []) ∧
    ("a history of smoking" ∈ promptParts f ↔ f.smoking > 5) ∧
    ("significant sun exposure" ∈ promptParts f ↔ f.sunExposure > 5) ∧
    ("high levels of stress" ∈ promptParts f ↔ f.stress > 5) ∧
    (f.smoking ≤ 5 → f.sunExposure ≤ 5 → f.stress ≤ 5 →
      factorsText f = "a healthy lifestyle" ∧ promptParts f = []) ∧
    (promptParts f ≠ [] → factorsText f = String.intercalate ", " (promptParts f)) ∧
    createPrompt year f = promptHead year ++ factorsText f ++ promptTail := by
  have hpp : promptParts f =
      (if f.smoking > 5 then ["a history of smoking"] else []) ++
      (if f.sunExposure > 5 then ["significant sun exposure"] else []) ++
      (if f.stress > 5 then ["high levels of stress"] else []) := by
    by_cases hs : f.smoking > 5 <;> by_cases hu : f.sunExposure > 5 <;>
      by_cases ht : f.stress > 5 <;> simp [promptParts, hs, hu, ht]
  refine ⟨hpp, ?_, ?_, ?_, ?_, ?_, rfl⟩
  · rw [hpp]
    by_cases hs : f.smoking > 5 <;> by_cases hu : f.sunExposure > 5 <;>
      by_cases ht : f.stress > 5 <;> simp [hs, hu, ht]
  · rw [hpp]
    by_cases hs : f.smoking > 5 <;> by_cases hu : f.sunExposure > 5 <;>
      by_cases ht : f.stress > 5 <;> simp [hs, hu, ht]
  · rw [hpp]
    by_cases hs : f.smoking > 5 <;> by_cases hu : f.sunExposure > 5 <;>
      by_cases ht : f.stress > 5 <;> simp [hs, hu, ht]
  · intro hs hu ht
    have hs' : ¬ f.smoking > 5 := by omega
    have hu' : ¬ f.sunExposure > 5 := by omega
    have ht' : ¬ f.stress > 5 := by omega
    constructor
    · simp [factorsText, promptParts, hs', hu', ht']
    · simp [promptParts, hs', hu', ht']
  · intro hne
    have : (promptParts f).length ≠ 0 := by
      intro h0
      exact hne (List.length_eq_zero.mp h0)
    simp [factorsText, this]

/-- Witness for C1 at year 2030 with only the smoking slider above the
threshold. -/
theorem createPrompt_clause_policy_witness :
    createPrompt 2030 ⟨6, 0, 0⟩ = promptHead 2030 ++ factorsText ⟨6, 0, 0⟩ ++ promptTail :=
  (createPrompt_clause_policy 2030 ⟨6, 0, 0⟩ (by decide) (by decide) (by decide)).2.2.2.2.2.2

/-- Claim C10: the two copies of the prompt builder are extensionally
equal: on every year and every slider record they produce identical
strings. -/
theorem createPrompt_versions_agree (year : Nat) (f : LifestyleFactors) :
    createPrompt year f = createPromptV2 year f := rfl

/-- Settlement of one year's generation attempt inside `handleGenerate`
(lines 484-502): the awaited `generateSingleImage` promise either resolves
with `base64Image : string | null` or rejects. -/
inductive GenOutcome where
  | result (img : Option String)
  | thrown
deriving Repr, DecidableEq

/-- The update applied to the settled year's card (lines 490-492 and 499).
Line 490 branches on the JavaScript truthiness of
`base64Image : string | null` (`base64Image ? ... : ...`): both `null` and
the empty string are falsy, so a truthy (non-empty) result yields `success`
with a data URL while a null result, an empty-string result or a rejection
yields `error`. -/
def applyOutcome (o : GenOutcome) (r : ResultCard) : ResultCard :=
  match o with
  | .result (some img) =>
    if img = "" then { r with status := .error }
    else { r with status := .success, imageUrl := some ("data:image/png;base64," ++ img) }
  | .result none => { r with status := .error }
  | .thrown => { r with status := .error }

/-- The settlement handler for one year (lines 488-501): look up the year's
index with `findIndex` and, when present, replace that entry only. -/
def settleYear (o : GenOutcome) (rs : List ResultCard) (y : Nat) : List ResultCard :=
  match rs.findIdx? (fun r => r.year == y) with
  | none => rs
  | some i =>
    match rs[i]? with
    | none => rs
    | some r => rs.set i (applyOutcome o r)

/-- The collection built at the start of a run (line 479): one loading card
per fixed year. -/
def initResults : List ResultCard :=
  years.map (fun year => { year := year, status := .loading, imageUrl := none })

/-- The result collection after the settlements listed in `order` have been
applied, starting from `rs`. -/
def runSettlements (outcome : Nat → GenOutcome) (order : List Nat) (rs : List ResultCard) : List ResultCard :=
  order.foldl (fun acc y => settleYear (outcome y) acc y) rs

/-- The successive values of `results` during one generation run: the
all-loading collection, then the collection after each settlement in
`order`. -/
def runTrace (outcome : Nat → GenOutcome) (order : List Nat) : List (List ResultCard) :=
  List.scanl (fun acc y => settleYear (outcome y) acc y) initResults order

/-- The successive `(results, isLoading)` pairs observable during one run:
`isLoading` is `true` from the trigger (line 476) through every individual
settlement, and becomes `false` only in the `finally` block (line 509),
which runs after `await Promise.all` (line 504). -/
def runStatesWithFlag (outcome : Nat → GenOutcome) (order : List Nat) : List (List ResultCard × Bool) :=
  (runTrace outcome order).map (fun rs => (rs, true)) ++
    [(runSettlements outcome order initResults, false)]

/-- One request issued to the image-generation API by a run
(lines 486-487): the per-year prompt together with the uploaded image's
payload and MIME type. -/
structure GenRequest where
  prompt : String
  imageBase64 : String
  mimeType : String
deriving Repr, DecidableEq

/-- The orchestrator `handleGenerate` (lines 469-513), as a function of the
current state and of the environment's settlement behaviour.  It returns
the final state, the list of requests issued, and the trace of the result
collection.  With no uploaded image it sets the validation message and does
nothing else (lines 470-474); otherwise it issues one request per year and
the run ends with `isLoading` cleared in the `finally` block. -/
def handleGenerate (s : AppState) (outcome : Nat → GenOutcome) (order : List Nat) :
    AppState × List GenRequest × List (List ResultCard) :=
  match s.uploadedImage with
  | none => ({ s with errorMessage := some "Please upload an image first." }, [], [])
  | some img =>
    let requests : List GenRequest := years.map (fun year =>
      { prompt := createPrompt year s.lifestyleFactors,
        imageBase64 := img.base64, mimeType := img.mimeType })
    let finalResults := runSettlements outcome order initResults
    ({ s with isLoading := false, errorMessage := none, results := finalResults },
      requests, runTrace outcome order)

/-- Whether the trigger control is enabled: `updateUI` (lines 335-343) sets
`generateButton.disabled` exactly when `isLoading` holds. -/
def triggerEnabled (s : AppState) : Bool := !s.isLoading

/-- The five fixed years are pairwise distinct. -/
theorem years_nodup : years.Nodup := by decide

/-- The years of the initial collection are the five fixed years. -/
theorem initResults_years : initResults.map (fun r => r.year) = years := rfl

/-- `applyOutcome` never changes the card's year. -/
theorem applyOutcome_year (o : GenOutcome) (r : ResultCard) :
    (applyOutcome o r).year = r.year := by
  cases o with
  | result img =>
    cases img with
    | none => rfl
    | some b =>
      simp only [applyOutcome]
      split <;> rfl
  | thrown => rfl

/-- `applyOutcome` always produces a terminal status. -/
theorem applyOutcome_status (o : GenOutcome) (r : ResultCard) :
    (applyOutcome o r).status = .success ∨ (applyOutcome o r).status = .error := by
  cases o with
  | result img =>
    cases img with
    | none => exact Or.inr rfl
    | some b =>
      simp only [applyOutcome]
      split
      · exact Or.inr rfl
      · exact Or.inl rfl
  | thrown => exact Or.inr rfl

/-- A successful index returned by `findIndex` is in bounds and its entry
matches the searched year. -/
theorem findIdx?_year_spec {rs : List ResultCard} {y j : Nat}
    (h : rs.findIdx? (fun r => r.year == y) = some j) :
    ∃ hj : j < rs.length, (rs.get ⟨j, hj⟩).year = y := by
  rw [List.findIdx?_eq_some_iff_findIdx_eq] at h
  obtain ⟨hlt, hidx⟩ := h
  subst hidx
  refine ⟨hlt, ?_⟩
  have := @List.findIdx_getElem _ (fun r => r.year == y) rs hlt
  simpa using this

/-- With pairwise-distinct years, `findIndex` locates exactly the index
holding the searched year. -/
theorem findIdx?_year_unique {rs : List ResultCard} {y j : Nat}
    (hnd : (rs.map (fun r => r.year)).Nodup) (hj : j < rs.length)
    (hy : (rs.get ⟨j, hj⟩).year = y) :
    rs.findIdx? (fun r => r.year == y) = some j := by
  have hex : ∃ x ∈ rs, (fun r : ResultCard => r.year == y) x = true :=
    ⟨rs.get ⟨j, hj⟩, by exact List.getElem_mem hj, by simp only [beq_iff_eq]; exact hy⟩
  have h1 := List.findIdx?_eq_some_of_exists hex
  obtain ⟨hlt, hyy⟩ := findIdx?_year_spec h1
  have hlt2 : rs.findIdx (fun r => r.year == y) < (rs.map (fun r => r.year)).length := by
    simpa using hlt
  have hj2 : j < (rs.map (fun r => r.year)).length := by
    simpa using hj
  have hmap : (rs.map (fun r => r.year))[rs.findIdx (fun r => r.year == y)]
      = (rs.map (fun r => r.year))[j] := by
    simp only [List.getElem_map]
    show (rs.get ⟨_, hlt⟩).year = (rs.get ⟨j, hj⟩).year
    rw [hyy, hy]
  have heq := (List.Nodup.getElem_inj_iff hnd).mp hmap
  rw [h1, heq]

/-- Settling a year preserves the length of the collection. -/
theorem settleYear_length (o : GenOutcome) (rs : List ResultCard) (y : Nat) :
    (settleYear o rs y).length = rs.length := by
  unfold settleYear
  split
  · rfl
  · split
    · rfl
    · simp [List.length_set]

/-- Settling a year preserves the year of every entry. -/
theorem settleYear_years (o : GenOutcome) (rs : List ResultCard) (y : Nat) :
    (settleYear o rs y).map (fun r => r.year) = rs.map (fun r => r.year) := by
  rcases hfind : rs.findIdx? (fun r => r.year == y) with _ | j
  · simp [settleYear, hfind]
  · rcases hget : rs[j]? with _ | r
    · simp [settleYear, hfind, hget]
    · simp only [settleYear, hfind, hget]
      obtain ⟨hjl, -⟩ := List.getElem?_eq_some.mp hget
      apply List.ext_getElem?
      intro n
      rw [List.map_set, List.getElem?_set]
      split
      · next hjn =>
        subst hjn
        rw [if_pos (by simpa using hjl), applyOutcome_year,
          List.getElem?_map, List.getElem?_eq_getElem hjl]
        have hr : rs[j] = r := by
          have := List.getElem?_eq_getElem hjl
          rw [hget] at this
          exact (Option.some.inj this).symm
        simp [hr]
      · rfl

/-- Claim C6 frame part: settling year `y` leaves every entry whose year is
not `y` untouched. -/
theorem settleYear_frame (o : GenOutcome) (rs : List ResultCard) (y : Nat)
    {i : Nat} (hi : i < rs.length) (hne : (rs.get ⟨i, hi⟩).year ≠ y) :
    (settleYear o rs y)[i]? = rs[i]? := by
  rcases hfind : rs.findIdx? (fun r => r.year == y) with _ | j
  · simp [settleYear, hfind]
  · rcases hget : rs[j]? with _ | r
    · simp [settleYear, hfind, hget]
    · simp only [settleYear, hfind, hget]
      obtain ⟨hj, hyj⟩ := findIdx?_year_spec hfind
      refine List.getElem?_set_ne ?_
      intro hji
      apply hne
      subst hji
      exact hyj

/-- Claim C6 update part: the entry at the index located by `findIndex` is
replaced by the outcome-updated card. -/
theorem settleYear_update (o : GenOutcome) (rs : List ResultCard) (y j : Nat)
    (hfind : rs.findIdx? (fun r => r.year == y) = some j) :
    (settleYear o rs y)[j]? = (rs[j]?).map (applyOutcome o) := by
  obtain ⟨hj, hyj⟩ := findIdx?_year_spec hfind
  have hget : rs[j]? = some (rs.get ⟨j, hj⟩) := List.getElem?_eq_getElem hj
  simp only [settleYear, hfind, hget]
  rw [List.getElem?_set_self hj]
  rfl

/-- A run preserves the length of the collection. -/
theorem runSettlements_length (outcome : Nat → GenOutcome) (order : List Nat)
    (rs : List ResultCard) : (runSettlements outcome order rs).length = rs.length := by
  induction order generalizing rs with
  | nil => rfl
  | cons y rest ih =>
    have : runSettlements outcome (y :: rest) rs
        = runSettlements outcome rest (settleYear (outcome y) rs y) := rfl
    rw [this, ih, settleYear_length]

/-- A run preserves the year of every entry. -/
theorem runSettlements_years (outcome : Nat → GenOutcome) (order : List Nat)
    (rs : List ResultCard) :
    (runSettlements outcome order rs).map (fun r => r.year) = rs.map (fun r => r.year) := by
  induction order generalizing rs with
  | nil => rfl
  | cons y rest ih =>
    have : runSettlements outcome (y :: rest) rs
        = runSettlements outcome rest (settleYear (outcome y) rs y) := rfl
    rw [this, ih, settleYear_years]

/-- Value of each entry after a run whose settlement order has no repeated
year: an entry whose year appears in the order is updated exactly once with
its own year's outcome, any other entry is untouched. -/
theorem runSettlements_getElem? (outcome : Nat → GenOutcome) :
    ∀ (order : List Nat) (rs : List ResultCard),
    (rs.map (fun r => r.year)).Nodup → order.Nodup →
    ∀ i, (hi : i < rs.length) →
    (runSettlements outcome order rs)[i]?
      = some (if (rs.get ⟨i, hi⟩).year ∈ order
          then applyOutcome (outcome ((rs.get ⟨i, hi⟩).year)) (rs.get ⟨i, hi⟩)
          else rs.get ⟨i, hi⟩) := by
  intro order
  induction order with
  | nil =>
    intro rs hnd hndo i hi
    simp [runSettlements, List.getElem?_eq_getElem hi]
  | cons y rest ih =>
    intro rs hnd hndo i hi
    obtain ⟨hy_rest, hnd_rest⟩ := List.nodup_cons.mp hndo
    have hlen : (settleYear (outcome y) rs y).length = rs.length := settleYear_length _ _ _
    have hnd1 : ((settleYear (outcome y) rs y).map (fun r => r.year)).Nodup := by
      rw [settleYear_years]; exact hnd
    have hstep : runSettlements outcome (y :: rest) rs
        = runSettlements outcome rest (settleYear (outcome y) rs y) := rfl
    rw [hstep]
    have hi' : i < (settleYear (outcome y) rs y).length := hlen ▸ hi
    have ihs := ih (settleYear (outcome y) rs y) hnd1 hnd_rest i hi'
    by_cases hy : (rs.get ⟨i, hi⟩).year = y
    · have hfind : rs.findIdx? (fun r => r.year == y) = some i :=
        findIdx?_year_unique hnd hi hy
      have h1 : (settleYear (outcome y) rs y)[i]? = some (applyOutcome (outcome y) (rs.get ⟨i, hi⟩)) := by
        rw [settleYear_update _ _ _ _ hfind, List.getElem?_eq_getElem hi]
        rfl
      have h2 : (settleYear (outcome y) rs y).get ⟨i, hi'⟩ = applyOutcome (outcome y) (rs.get ⟨i, hi⟩) := by
        have := List.getElem?_eq_getElem hi'
        rw [h1] at this
        exact (Option.some.inj this).symm
      rw [ihs, h2, applyOutcome_year, hy, if_neg hy_rest,
        if_pos (List.mem_cons_self y rest)]
    · have h1 : (settleYear (outcome y) rs y)[i]? = rs[i]? := settleYear_frame _ _ _ hi hy
      have h2 : (settleYear (outcome y) rs y).get ⟨i, hi'⟩ = rs.get ⟨i, hi⟩ := by
        have h3 := List.getElem?_eq_getElem hi'
        rw [h1, List.getElem?_eq_getElem hi] at h3
        exact (Option.some.inj h3).symm
      rw [ihs, h2]
      have hy' : rs[i].year ≠ y := hy
      have hmem : (rs.get ⟨i, hi⟩).year ∈ y :: rest ↔ (rs.get ⟨i, hi⟩).year ∈ rest := by
        simp [List.mem_cons, hy']
      by_cases hin : (rs.get ⟨i, hi⟩).year ∈ rest
      · rw [if_pos hin, if_pos (hmem.mpr hin)]
      · rw [if_neg hin, if_neg (fun h => hin (hmem.mp h))]

/-- Every entry of the initial collection is loading. -/
theorem initResults_loading : ∀ c ∈ initResults, c.status = .loading := by decide

/-- Entry `k` of the values scanned along a fold is the fold over the first
`k` inputs. -/
theorem scanl_getElem? {α β : Type} (f : β → α → β) :
    ∀ (l : List α) (b : β) (k : Nat), k ≤ l.length →
    (List.scanl f b l)[k]? = some (List.foldl f b (l.take k)) := by
  intro l
  induction l with
  | nil =>
    intro b k hk
    have : k = 0 := Nat.le_zero.mp hk
    subst this
    simp [List.scanl]
  | cons a l ih =>
    intro b k hk
    rw [List.scanl_cons, List.singleton_append]
    cases k with
    | zero => simp
    | succ k =>
      have hk' : k ≤ l.length := by simpa using hk
      rw [List.getElem?_cons_succ, ih (f b a) k hk', List.take_succ_cons, List.foldl_cons]

/-- In a duplicate-free list, the entry at position `k` does not occur among
the first `k` entries. -/
theorem nodup_getElem_not_mem_take {α : Type} {l : List α} (h : l.Nodup)
    {k : Nat} (hk : k < l.length) : l.get ⟨k, hk⟩ ∉ l.take k := by
  intro hmem
  obtain ⟨j, hj, heq⟩ := List.mem_iff_getElem.mp hmem
  have hjk : j < k := by
    have := hj
    rw [List.length_take] at this
    omega
  have hjl : j < l.length := Nat.lt_trans hjk hk
  have heq' : l.get ⟨j, hjl⟩ = l.get ⟨k, hk⟩ := by
    rw [← heq]
    exact (List.getElem_take l).symm
  have := (List.Nodup.getElem_inj_iff h).mp heq'
  omega

/-- Entry `k` of the run trace is the collection after the first `k`
settlements. -/
theorem runTrace_getElem? (outcome : Nat → GenOutcome) (order : List Nat)
    (k : Nat) (hk : k ≤ order.length) :
    (runTrace outcome order)[k]? = some (runSettlements outcome (order.take k) initResults) :=
  scanl_getElem? (fun acc y => settleYear (outcome y) acc y) order initResults k hk

/-- A sample uploaded image used by the concrete witnesses. -/
def exampleImage : UploadedImage :=
  { base64 := "QUJD", mimeType := "image/png", fileName := "portrait", objectURL := 0 }

/-- A sample application state with an uploaded image and a stale result
card left over from an earlier run, used by the concrete witnesses. -/
def exampleState : AppState :=
  { uploadedImage := some exampleImage, lifestyleFactors := ⟨0, 2, 3⟩, isLoading := false,
    results := [{ year := 2030, status := .success, imageUrl := some "stale" }],
    errorMessage := none, objectURLCounter := 1, revokedURLs := [] }

/-- Claim C2: triggering generation with no uploaded image sets exactly the
validation message "Please upload an image first.", issues no request,
leaves the result cards untouched, leaves the in-progress flag untouched,
and produces no run trace. -/
theorem handleGenerate_validation (s : AppState) (outcome : Nat → GenOutcome)
    (order : List Nat) (hnone : s.uploadedImage = none) :
    handleGenerate s outcome order
      = ({ s with errorMessage := some "Please upload an image first." }, [], []) ∧
    (handleGenerate s outcome order).1.results = s.results ∧
    (handleGenerate s outcome order).1.isLoading = s.isLoading ∧
    (handleGenerate s outcome order).2.1 = [] := by
  refine ⟨?_, ?_, ?_, ?_⟩ <;> simp [handleGenerate, hnone]

/-- Witness for C2 on a concrete empty state. -/
theorem handleGenerate_validation_witness :
    (handleGenerate ⟨none, ⟨0, 2, 3⟩, false, [], none, 0, []⟩
      (fun _ => GenOutcome.thrown) years).2.1 = [] :=
  (handleGenerate_validation ⟨none, ⟨0, 2, 3⟩, false, [], none, 0, []⟩
    (fun _ => GenOutcome.thrown) years rfl).2.2.2

/-- Claim C4: with an image uploaded, every run starts from exactly five
loading cards, one per fixed year, whatever the result cards of the
previous run were: the head of the run trace is the all-loading collection
rebuilt from scratch, independent of the prior state. -/
theorem handleGenerate_resets_cards (s : AppState) (img : UploadedImage)
    (outcome : Nat → GenOutcome) (order : List Nat)
    (himg : s.uploadedImage = some img) :
    (handleGenerate s outcome order).2.2.head? = some initResults ∧
    initResults = [⟨2030, .loading, none⟩, ⟨2040, .loading, none⟩,
      ⟨2050, .loading, none⟩, ⟨2060, .loading, none⟩, ⟨2070, .loading, none⟩] := by
  constructor
  · have htr : (handleGenerate s outcome order).2.2 = runTrace outcome order := by
      simp [handleGenerate, himg]
    rw [htr]
    cases order with
    | nil => rfl
    | cons y rest => rw [runTrace, List.scanl_cons, List.singleton_append]; rfl
  · rfl

/-- Witness for C4: a re-trigger from a state holding a stale success card
still starts from the all-loading collection. -/
theorem handleGenerate_resets_cards_witness :
    (handleGenerate exampleState (fun _ => GenOutcome.thrown) []).2.2.head? = some initResults :=
  (handleGenerate_resets_cards exampleState exampleImage (fun _ => GenOutcome.thrown) [] rfl).1

/-- Claim C3: in a run where exactly one year's request rejects or returns
an empty result (null or the empty string, falsy on line 490) and the
other four resolve with image bytes (non-empty strings), exactly that
year's card ends in `error`, the other four end in `success`, every year
keeps its card, and the run completes: the in-progress flag ends cleared
and the trigger control is enabled again. -/
theorem handleGenerate_partial_failure (s : AppState) (img : UploadedImage)
    (outcome : Nat → GenOutcome) (order : List Nat) (y0 : Nat)
    (himg : s.uploadedImage = some img) (hperm : order.Perm years) (hy0 : y0 ∈ years)
    (hbad : outcome y0 = GenOutcome.thrown ∨ outcome y0 = GenOutcome.result none ∨
      outcome y0 = GenOutcome.result (some ""))
    (hgood : ∀ y, y ∈ years → y ≠ y0 →
      ∃ b, b ≠ "" ∧ outcome y = GenOutcome.result (some b)) :
    (handleGenerate s outcome order).1.results.length = 5 ∧
    (handleGenerate s outcome order).1.results.map (fun r => r.year) = years ∧
    (∀ c ∈ (handleGenerate s outcome order).1.results,
      (c.year = y0 → c.status = .error) ∧ (c.year ≠ y0 → c.status = .success)) ∧
    (handleGenerate s outcome order).1.isLoading = false ∧
    triggerEnabled (handleGenerate s outcome order).1 = true := by
  have hres : (handleGenerate s outcome order).1.results
      = runSettlements outcome order initResults := by
    simp [handleGenerate, himg]
  have hflag : (handleGenerate s outcome order).1.isLoading = false := by
    simp [handleGenerate, himg]
  have hndi : (initResults.map (fun r => r.year)).Nodup := by
    rw [initResults_years]; exact years_nodup
  have hndo : order.Nodup := (List.Perm.nodup_iff hperm).mpr years_nodup
  refine ⟨?_, ?_, ?_, hflag, ?_⟩
  · rw [hres, runSettlements_length]; rfl
  · rw [hres, runSettlements_years]; exact initResults_years
  · intro c hc
    rw [hres] at hc
    obtain ⟨i, hilt, hci⟩ := List.mem_iff_getElem.mp hc
    have hi : i < initResults.length := runSettlements_length outcome order initResults ▸ hilt
    have hL := runSettlements_getElem? outcome order initResults hndi hndo i hi
    have hci' : (runSettlements outcome order initResults)[i]? = some c := by
      rw [List.getElem?_eq_getElem hilt, hci]
    rw [hL] at hci'
    have hc_eq := Option.some.inj hci'
    have hmemy : (initResults.get ⟨i, hi⟩).year ∈ years := by
      rw [← initResults_years]
      exact List.mem_map_of_mem _ (by exact List.getElem_mem hi)
    have hmemo : (initResults.get ⟨i, hi⟩).year ∈ order := (List.Perm.mem_iff hperm).mpr hmemy
    rw [if_pos hmemo] at hc_eq
    constructor
    · intro hcy
      have hyi : (initResults.get ⟨i, hi⟩).year = y0 := by
        rw [← hcy, ← hc_eq, applyOutcome_year]
      rcases hbad with hb | hb | hb
      · rw [← hc_eq, hyi, hb]; rfl
      · rw [← hc_eq, hyi, hb]; rfl
      · rw [← hc_eq, hyi, hb]; simp [applyOutcome]
    · intro hcy
      have hyi : (initResults.get ⟨i, hi⟩).year ≠ y0 := by
        intro h
        exact hcy (by rw [← hc_eq, applyOutcome_year, h])
      obtain ⟨b, hbne, hb⟩ := hgood _ hmemy hyi
      rw [← hc_eq, hb]
      simp [applyOutcome, hbne]
  · simp [triggerEnabled, hflag]

/-- Witness for C3: the year 2050 rejects, the other four resolve with
bytes, and the run ends with the flag cleared. -/
theorem handleGenerate_partial_failure_witness :
    (handleGenerate exampleState
      (fun y => if y = 2050 then GenOutcome.thrown else GenOutcome.result (some "QUJD"))
      years).1.isLoading = false :=
  (handleGenerate_partial_failure exampleState exampleImage
    (fun y => if y = 2050 then GenOutcome.thrown else GenOutcome.result (some "QUJD"))
    years 2050 rfl (List.Perm.refl years) (by decide)
    (Or.inl (by simp))
    (fun y hy hne => ⟨"QUJD", by decide, by simp [hne]⟩)).2.2.2.1

/-- Claim C5: along the trace of one run, a card that changes between two
consecutive observable states was loading before the change and is
`success` or `error` after it; hence each card changes status at most once,
only by `loading` to `success` or `loading` to `error`, and a card that has
reached `success` or `error` never changes again. -/
theorem run_status_transitions (outcome : Nat → GenOutcome) (order : List Nat)
    (hperm : order.Perm years) (k i : Nat) (t t' : List ResultCard) (c c' : ResultCard)
    (ht : (runTrace outcome order)[k]? = some t)
    (ht' : (runTrace outcome order)[k + 1]? = some t')
    (hc : t[i]? = some c) (hc' : t'[i]? = some c') (hne : c ≠ c') :
    c.status = .loading ∧ (c'.status = .success ∨ c'.status = .error) := by
  have hndo : order.Nodup := (List.Perm.nodup_iff hperm).mpr years_nodup
  have hndi : (initResults.map (fun r => r.year)).Nodup := by
    rw [initResults_years]; exact years_nodup
  have hlen_tr : (runTrace outcome order).length = order.length + 1 :=
    List.length_scanl _ _
  have hk1 : k + 1 < (runTrace outcome order).length := (List.getElem?_eq_some.mp ht').1
  have hk_order : k < order.length := by omega
  have ht_eq : t = runSettlements outcome (order.take k) initResults := by
    have h := runTrace_getElem? outcome order k (Nat.le_of_lt hk_order)
    rw [ht] at h
    exact Option.some.inj h
  have ht'_eq : t' = runSettlements outcome (order.take (k + 1)) initResults := by
    have h := runTrace_getElem? outcome order (k + 1) hk_order
    rw [ht'] at h
    exact Option.some.inj h
  have htake : order.take (k + 1) = order.take k ++ [order.get ⟨k, hk_order⟩] := by
    rw [List.take_succ, List.getElem?_eq_getElem hk_order]
    rfl
  have hstep : t' = settleYear (outcome (order.get ⟨k, hk_order⟩)) t (order.get ⟨k, hk_order⟩) := by
    rw [ht'_eq, htake, ht_eq]
    simp only [runSettlements]
    rw [List.foldl_concat]
  have hit : i < t.length := (List.getElem?_eq_some.mp hc).1
  have hti : t.get ⟨i, hit⟩ = c := by
    have h := List.getElem?_eq_getElem hit
    exact Option.some.inj (h.symm.trans hc)
  have ht_len : t.length = initResults.length := by rw [ht_eq, runSettlements_length]
  have hii : i < initResults.length := ht_len ▸ hit
  have hcy : c.year = order.get ⟨k, hk_order⟩ := by
    by_contra hcy
    have hfr := settleYear_frame (outcome (order.get ⟨k, hk_order⟩)) t
      (order.get ⟨k, hk_order⟩) hit (by rw [hti]; exact hcy)
    rw [← hstep, hc', hc] at hfr
    exact hne (Option.some.inj hfr).symm
  have hnd_take : (order.take k).Nodup := List.Nodup.sublist (List.take_sublist k order) hndo
  have hL := runSettlements_getElem? outcome (order.take k) initResults hndi hnd_take i hii
  have hcL : (if (initResults.get ⟨i, hii⟩).year ∈ order.take k
      then applyOutcome (outcome ((initResults.get ⟨i, hii⟩).year)) (initResults.get ⟨i, hii⟩)
      else initResults.get ⟨i, hii⟩) = c := by
    rw [← ht_eq] at hL
    rw [hc] at hL
    exact (Option.some.inj hL).symm
  have hy_take : order.get ⟨k, hk_order⟩ ∉ order.take k :=
    nodup_getElem_not_mem_take hndo hk_order
  have hc_init : c = initResults.get ⟨i, hii⟩ := by
    by_cases hmem : (initResults.get ⟨i, hii⟩).year ∈ order.take k
    · exfalso
      rw [if_pos hmem] at hcL
      apply hy_take
      rw [← hcy, ← hcL, applyOutcome_year]
      exact hmem
    · rw [if_neg hmem] at hcL
      exact hcL.symm
  have hload : c.status = .loading := by
    rw [hc_init]
    exact initResults_loading _ (by exact List.getElem_mem hii)
  have hnd_t : (t.map (fun r => r.year)).Nodup := by
    rw [ht_eq, runSettlements_years]
    exact hndi
  have hfind : t.findIdx? (fun r => r.year == order.get ⟨k, hk_order⟩) = some i :=
    findIdx?_year_unique hnd_t hit (by rw [hti]; exact hcy)
  have hupd := settleYear_update (outcome (order.get ⟨k, hk_order⟩)) t
    (order.get ⟨k, hk_order⟩) i hfind
  rw [← hstep, hc', hc] at hupd
  have hc'eq : c' = applyOutcome (outcome (order.get ⟨k, hk_order⟩)) c :=
    Option.some.inj hupd
  exact ⟨hload, hc'eq ▸ applyOutcome_status _ c⟩

/-- Witness for C5: the first settlement of a concrete run changes the 2030
card from loading to a terminal status. -/
theorem run_status_transitions_witness :
    (ResultCard.mk 2030 CardStatus.loading none).status = CardStatus.loading ∧
    ((ResultCard.mk 2030 CardStatus.error none).status = CardStatus.success ∨
      (ResultCard.mk 2030 CardStatus.error none).status = CardStatus.error) :=
  run_status_transitions (fun _ => GenOutcome.result none) years (List.Perm.refl years)
    0 0 initResults (settleYear (GenOutcome.result none) initResults 2030)
    ⟨2030, CardStatus.loading, none⟩ ⟨2030, CardStatus.error, none⟩
    (by decide) (by decide) (by decide) (by decide) (by decide)

/-- Claim C6: settling year `y` updates only year `y`'s entry — the entry
located by `findIndex` is replaced according to the outcome (`success` with
the image data URL on a non-empty result; `error` on an empty result, i.e.
a null or empty-string `base64Image` falsy on line 490, or on a
rejection), every entry with a different year is unchanged, and a
collection without year `y` is unchanged entirely. -/
theorem settleYear_updates_only_target (o : GenOutcome) (rs : List ResultCard) (y : Nat) :
    (∀ i, (hi : i < rs.length) → (rs.get ⟨i, hi⟩).year ≠ y →
      (settleYear o rs y)[i]? = rs[i]?) ∧
    (∀ j, rs.findIdx? (fun r => r.year == y) = some j →
      (settleYear o rs y)[j]? = (rs[j]?).map (applyOutcome o)) ∧
    (∀ r img, img ≠ "" → applyOutcome (GenOutcome.result (some img)) r
      = { r with status := .success, imageUrl := some ("data:image/png;base64," ++ img) }) ∧
    (∀ r, applyOutcome (GenOutcome.result (some "")) r = { r with status := .error }) ∧
    (∀ r, applyOutcome (GenOutcome.result none) r = { r with status := .error }) ∧
    (∀ r, applyOutcome GenOutcome.thrown r = { r with status := .error }) ∧
    ((∀ c ∈ rs, c.year ≠ y) → settleYear o rs y = rs) := by
  refine ⟨fun i hi h => settleYear_frame o rs y hi h,
    fun j h => settleYear_update o rs y j h,
    fun r img himg => by simp [applyOutcome, himg],
    fun r => by simp [applyOutcome], fun r => rfl, fun r => rfl, ?_⟩
  intro hall
  have hnone : rs.findIdx? (fun r => r.year == y) = none :=
    List.findIdx?_eq_none_iff.mpr (fun x hx => by simpa using hall x hx)
  simp [settleYear, hnone]

/-- Witness for C6: settling 2040 leaves the 2030 entry of the initial
collection unchanged. -/
theorem settleYear_updates_only_target_witness :
    (settleYear GenOutcome.thrown initResults 2040)[0]? = initResults[0]? :=
  (settleYear_updates_only_target GenOutcome.thrown initResults 2040).1 0
    (by decide) (by decide)

/-- Claim C8: along the observable `(results, isLoading)` states of one
run, the flag is `false` only in the state reached after the all-settled
join, every earlier state has the flag `true`, and in every state with the
flag `false` no card is still loading. -/
theorem run_flag_cleared_after_all (outcome : Nat → GenOutcome) (order : List Nat)
    (hperm : order.Perm years) :
    (∀ st ∈ runStatesWithFlag outcome order, st.2 = false →
      ∀ c ∈ st.1, c.status ≠ .loading) ∧
    (∀ k, k + 1 < (runStatesWithFlag outcome order).length →
      ∀ st, (runStatesWithFlag outcome order)[k]? = some st → st.2 = true) ∧
    (runStatesWithFlag outcome order).getLast?
      = some (runSettlements outcome order initResults, false) := by
  have hndi : (initResults.map (fun r => r.year)).Nodup := by
    rw [initResults_years]; exact years_nodup
  have hndo : order.Nodup := (List.Perm.nodup_iff hperm).mpr years_nodup
  have hterm : ∀ c ∈ runSettlements outcome order initResults, c.status ≠ .loading := by
    intro c hc
    obtain ⟨i, hilt, hci⟩ := List.mem_iff_getElem.mp hc
    have hi : i < initResults.length := runSettlements_length outcome order initResults ▸ hilt
    have hL := runSettlements_getElem? outcome order initResults hndi hndo i hi
    have hci' : (runSettlements outcome order initResults)[i]? = some c := by
      rw [List.getElem?_eq_getElem hilt, hci]
    rw [hL] at hci'
    have hc_eq := Option.some.inj hci'
    have hmemy : (initResults.get ⟨i, hi⟩).year ∈ years := by
      rw [← initResults_years]
      exact List.mem_map_of_mem _ (by exact List.getElem_mem hi)
    have hmemo : (initResults.get ⟨i, hi⟩).year ∈ order := (List.Perm.mem_iff hperm).mpr hmemy
    rw [if_pos hmemo] at hc_eq
    rcases applyOutcome_status (outcome ((initResults.get ⟨i, hi⟩).year))
        (initResults.get ⟨i, hi⟩) with h | h
    · rw [← hc_eq, h]; intro hx; cases hx
    · rw [← hc_eq, h]; intro hx; cases hx
  refine ⟨?_, ?_, ?_⟩
  · intro st hst hflag c hcst
    rcases List.mem_append.mp hst with hmap | hsing
    · obtain ⟨rs, hrs, hst_eq⟩ := List.mem_map.mp hmap
      rw [← hst_eq] at hflag
      cases hflag
    · have hst_eq : st = (runSettlements outcome order initResults, false) := by
        simpa using hsing
      rw [hst_eq] at hcst
      exact hterm c hcst
  · intro k hk st hst
    have hlen_tr : (runTrace outcome order).length = order.length + 1 :=
      List.length_scanl _ _
    have hlen : (runStatesWithFlag outcome order).length = order.length + 2 := by
      simp [runStatesWithFlag, List.length_append, List.length_map, hlen_tr]
    have hkmap : k < ((runTrace outcome order).map (fun rs => (rs, true))).length := by
      rw [List.length_map, hlen_tr]
      omega
    have happ : (runStatesWithFlag outcome order)[k]?
        = ((runTrace outcome order).map (fun rs => (rs, true)))[k]? := by
      simp only [runStatesWithFlag]
      rw [List.getElem?_append, if_pos hkmap]
    rw [happ, List.getElem?_map] at hst
    cases htr : (runTrace outcome order)[k]? with
    | none => rw [htr] at hst; cases hst
    | some rs =>
      rw [htr] at hst
      have := Option.some.inj hst
      rw [← this]
  · simp only [runStatesWithFlag]
    exact List.getLast?_concat _

/-- Witness for C8: a concrete run with settlement order equal to the
years. -/
theorem run_flag_cleared_after_all_witness :
    (runStatesWithFlag (fun _ => GenOutcome.result none) years).getLast?
      = some (runSettlements (fun _ => GenOutcome.result none) years initResults, false) :=
  (run_flag_cleared_after_all (fun _ => GenOutcome.result none) years
    (List.Perm.refl years)).2.2

/-- Inline payload of a response part (the `inlineData` field read on
lines 459-460): the generated image bytes and their MIME type. -/
structure InlineData where
  data : String
  mimeType : String
deriving Repr, DecidableEq

/-- One part of a candidate's content: either an inline payload or text. -/
structure GenPart where
  inlineData : Option InlineData
  text : Option String
deriving Repr, DecidableEq

/-- The content of one response candidate. -/
structure Content where
  parts : List GenPart
deriving Repr, DecidableEq

/-- One candidate of the external API's response. -/
structure Candidate where
  content : Content
deriving Repr, DecidableEq

/-- The external API's response shape, as far as `generateSingleImage`
reads it (line 459): a list of candidates. -/
structure GenResponse where
  candidates : List Candidate
deriving Repr, DecidableEq

/-- The loop of lines 459-461: the first part carrying `inlineData`, if
any. -/
def firstInlineData : List GenPart → Option String
  | [] => none
  | p :: rest =>
    match p.inlineData with
    | some d => some d.data
    | none => firstInlineData rest

/-- Number of calls made so far to the external API; the ghost state that
counts invocations of `ai.models.generateContent`. -/
structure CallState where
  calls : Nat
deriving Repr, DecidableEq

/-- The first version's `generateSingleImage` (lines 447-467).  The
environment is an oracle `api` giving the response to the k-th call; the
function performs exactly one call.  A transport or API failure is caught
and rethrown (lines 463-466), hence propagated.  If the response carries no
candidate, reading `response.candidates[0].content.parts` throws a
TypeError inside the `try`, which the `catch` rethrows, so that case also
propagates as an error.  The request payload (`prompt`, the image bytes and
the MIME type, lines 450-457) does not influence the control flow modelled
here. -/
def generateSingleImage (api : Nat → Except String GenResponse)
    (prompt imageBase64 mimeType : String) (st : CallState) :
    Except String (Option String) × CallState :=
  let resp := api st.calls
  let st' : CallState := ⟨st.calls + 1⟩
  match resp with
  | Except.error e => (Except.error e, st')
  | Except.ok r =>
    match r.candidates with
    | [] => (Except.error "TypeError: candidates is empty", st')
    | c :: _ => (Except.ok (firstInlineData c.content.parts), st')

/-- `firstInlineData` really is the first inline payload of the part list. -/
theorem firstInlineData_eq_findSome? (ps : List GenPart) :
    firstInlineData ps
      = Option.map (fun d => d.data) (ps.findSome? (fun p => p.inlineData)) := by
  induction ps with
  | nil => rfl
  | cons p rest ih =>
    cases hp : p.inlineData <;>
      simp [firstInlineData, List.findSome?_cons, hp, ih]

/-- A part list without inline payloads yields nothing. -/
theorem firstInlineData_none (ps : List GenPart)
    (h : ∀ p ∈ ps, p.inlineData = none) : firstInlineData ps = none := by
  induction ps with
  | nil => rfl
  | cons p rest ih =>
    have hp := h p (List.mem_cons_self p rest)
    simp only [firstInlineData, hp]
    exact ih (fun q hq => h q (List.mem_cons_of_mem p hq))

/-- A concrete response whose first candidate has no inline payload while
its second candidate does. -/
def multiCandidateResponse : GenResponse :=
  { candidates :=
      [ { content := { parts := [{ inlineData := none, text := some "no image" }] } },
        { content := { parts := [{ inlineData := some { data := "SU1H", mimeType := "image/png" },
                                   text := none }] } } ] }

/-- Counterexample to C7 as stated: on `multiCandidateResponse` the
response does contain an inline image payload ("SU1H", in its second
candidate), yet the client returns nothing, because it only scans the parts
of the first candidate. -/
theorem generateSingleImage_not_whole_response :
    (generateSingleImage (fun _ => Except.ok multiCandidateResponse)
      "p" "QUJD" "image/png" ⟨0⟩).1 = Except.ok none ∧
    firstInlineData ((multiCandidateResponse.candidates.map
      (fun c => c.content.parts)).flatten) = some "SU1H" ∧
    (generateSingleImage (fun _ => Except.ok multiCandidateResponse)
      "p" "QUJD" "image/png" ⟨0⟩).1 ≠ Except.ok (some "SU1H") := by
  refine ⟨rfl, rfl, ?_⟩
  intro h
  simp [generateSingleImage, multiCandidateResponse, firstInlineData] at h

/-- Claim C7 as amended: the client performs exactly one API call per
invocation (so it never retries), propagates any transport/API failure
unchanged, returns the first inline payload found among the parts of the
response's first candidate or nothing when that candidate has none, and
errors when the response has no candidate at all. -/
theorem generateSingleImage_contract (api : Nat → Except String GenResponse)
    (prompt imageBase64 mimeType : String) (st : CallState) :
    ((generateSingleImage api prompt imageBase64 mimeType st).2.calls = st.calls + 1) ∧
    (∀ e, api st.calls = Except.error e →
      (generateSingleImage api prompt imageBase64 mimeType st).1 = Except.error e) ∧
    (∀ r c rest, api st.calls = Except.ok r → r.candidates = c :: rest →
      (generateSingleImage api prompt imageBase64 mimeType st).1
        = Except.ok (firstInlineData c.content.parts)) ∧
    (∀ r, api st.calls = Except.ok r → r.candidates = [] →
      ∃ e, (generateSingleImage api prompt imageBase64 mimeType st).1 = Except.error e) := by
  refine ⟨?_, ?_, ?_, ?_⟩
  · rcases h : api st.calls with e | r
    · simp [generateSingleImage, h]
    · rcases hc : r.candidates with _ | ⟨c, rest⟩ <;> simp [generateSingleImage, h, hc]
  · intro e he
    simp [generateSingleImage, he]
  · intro r c rest hr hc
    simp [generateSingleImage, hr, hc]
  · intro r hr hc
    exact ⟨"TypeError: candidates is empty", by simp [generateSingleImage, hr, hc]⟩

/-- Witness for the amended C7: one concrete failing call increments the
counter once and propagates the error. -/
theorem generateSingleImage_contract_witness :
    (generateSingleImage (fun _ => Except.error "network failure")
      "p" "QUJD" "image/png" ⟨3⟩).2.calls = 4 ∧
    (generateSingleImage (fun _ => Except.error "network failure")
      "p" "QUJD" "image/png" ⟨3⟩).1 = Except.error "network failure" :=
  ⟨(generateSingleImage_contract (fun _ => Except.error "network failure")
      "p" "QUJD" "image/png" ⟨3⟩).1,
    (generateSingleImage_contract (fun _ => Except.error "network failure")
      "p" "QUJD" "image/png" ⟨3⟩).2.1 "network failure" rfl⟩

/-- A file handed to `handleFile`: its name, MIME type and (already
decoded) base64 content.  `handleFile` receives these through `file.name`,
`file.type` and the `FileReader` result (lines 400-407). -/
structure FileData where
  name : String
  mimeType : String
  base64 : String
deriving Repr, DecidableEq

/-- The base name derived on line 400:
`file.name.split('.').slice(0, -1).join('.')`. -/
def baseName (n : String) : String :=
  String.intercalate "." ((n.splitOn ".").dropLast)

/-- The first version's `handleFile` (lines 399-415), modelled at the
moment its `reader.onload` callback runs, i.e. when the new upload's data
is ready.  Only then does it release the previous preview handle
(line 405, `URL.revokeObjectURL`), create the fresh handle (line 408,
`URL.createObjectURL`), replace `uploadedImage`, and clear `results` and
`errorMessage` (lines 410-411).  The release therefore never happens
before the new upload's data is ready. -/
def handleFile (file : FileData) (s : AppState) : AppState :=
  { s with
    revokedURLs :=
      match s.uploadedImage with
      | some u => s.revokedURLs ++ [u.objectURL]
      | none => s.revokedURLs,
    uploadedImage := some
      { base64 := file.base64, mimeType := file.mimeType,
        fileName := baseName file.name, objectURL := s.objectURLCounter },
    objectURLCounter := s.objectURLCounter + 1,
    results := [],
    errorMessage := none }

/-- The state at page load (lines 32-36): no upload, default slider values
0, 2, 3, no results, no error, and an empty object-URL registry. -/
def initialState : AppState :=
  { uploadedImage := none, lifestyleFactors := ⟨0, 2, 3⟩, isLoading := false,
    results := [], errorMessage := none, objectURLCounter := 0, revokedURLs := [] }

/-- The state after a sequence of uploads, each completing before the next
begins. -/
def uploadRun (files : List FileData) : AppState :=
  files.foldl (fun s f => handleFile f s) initialState

/-- Invariant of the upload lifecycle: either nothing was ever uploaded and
no handle exists, or the live upload holds the newest handle and exactly
the older handles have been revoked. -/
def UploadInv (s : AppState) : Prop :=
  (s.uploadedImage = none ∧ s.objectURLCounter = 0 ∧ s.revokedURLs = []) ∨
  (∃ u, s.uploadedImage = some u ∧ s.objectURLCounter = u.objectURL + 1 ∧
    s.revokedURLs = List.range u.objectURL)

/-- One upload step preserves the lifecycle invariant. -/
theorem handleFile_inv (f : FileData) (s : AppState) (h : UploadInv s) :
    UploadInv (handleFile f s) := by
  rcases h with ⟨h1, h2, h3⟩ | ⟨u, h1, h2, h3⟩
  · right
    refine ⟨⟨f.base64, f.mimeType, baseName f.name, s.objectURLCounter⟩, rfl, rfl, ?_⟩
    simp [handleFile, h1, h2, h3]
  · right
    refine ⟨⟨f.base64, f.mimeType, baseName f.name, s.objectURLCounter⟩, rfl, rfl, ?_⟩
    simp [handleFile, h1, h3, h2, List.range_succ]

/-- The lifecycle invariant holds along any fold of upload steps. -/
theorem uploadFold_inv (files : List FileData) :
    ∀ s : AppState, UploadInv s →
      UploadInv (files.foldl (fun s f => handleFile f s) s) := by
  induction files with
  | nil => intro s h; exact h
  | cons f rest ih => intro s h; exact ih _ (handleFile_inv f s h)

/-- Each upload allocates exactly one fresh handle. -/
theorem uploadFold_counter (files : List FileData) :
    ∀ s : AppState,
      (files.foldl (fun s f => handleFile f s) s).objectURLCounter
        = s.objectURLCounter + files.length := by
  induction files with
  | nil => intro s; rfl
  | cons f rest ih =>
    intro s
    rw [List.foldl_cons, ih (handleFile f s)]
    have hstep : (handleFile f s).objectURLCounter = s.objectURLCounter + 1 := rfl
    rw [hstep, List.length_cons]
    omega

/-- Claim C9: across any nonempty sequence of completed uploads, the
superseded preview handles are released exactly once each — the revoked
list is precisely the list of all allocated handles except the live one,
with no duplicates — and the live upload's handle is never revoked.  Each
release happens inside the `onload` callback of the replacing upload, i.e.
only once the new upload's data is ready. -/
theorem handleFile_releases_once (files : List FileData) (hne : files ≠ []) :
    ∃ u, (uploadRun files).uploadedImage = some u ∧
      u.objectURL = files.length - 1 ∧
      (uploadRun files).revokedURLs = List.range (files.length - 1) ∧
      (uploadRun files).revokedURLs.Nodup ∧
      u.objectURL ∉ (uploadRun files).revokedURLs ∧
      (uploadRun files).objectURLCounter = files.length := by
  have hinv := uploadFold_inv files initialState (Or.inl ⟨rfl, rfl, rfl⟩)
  have hcount : (uploadRun files).objectURLCounter = files.length := by
    have h := uploadFold_counter files initialState
    simpa [uploadRun, initialState] using h
  rcases hinv with ⟨h1, h2, h3⟩ | ⟨u, h1, h2, h3⟩
  · exact absurd (List.eq_nil_of_length_eq_zero (hcount.symm.trans h2)) hne
  · rw [show List.foldl (fun s f => handleFile f s) initialState files
      = uploadRun files from rfl] at h1 h2 h3
    have hu : u.objectURL = files.length - 1 := by
      rw [hcount] at h2
      omega
    refine ⟨u, h1, hu, ?_, ?_, ?_, hcount⟩
    · rw [h3, hu]
    · rw [h3]; exact List.nodup_range _
    · rw [h3]
      intro hmem
      exact absurd (List.mem_range.mp hmem) (lt_irrefl _)

/-- Witness for C9: after two concrete uploads exactly the first handle has
been revoked. -/
theorem handleFile_releases_once_witness :
    (uploadRun [⟨"a.png", "image/png", "QQ"⟩, ⟨"b.jpg", "image/jpeg", "Qg"⟩]).revokedURLs
      = List.range 1 := by
  obtain ⟨u, h1, h2, h3, h4, h5, h6⟩ :=
    handleFile_releases_once [⟨"a.png", "image/png", "QQ"⟩, ⟨"b.jpg", "image/jpeg", "Qg"⟩]
      (by simp)
  exact h3
